import Mathlib

/-!
Shallow embedding of the authenticating reverse proxy in
`src/server/server.mjs`: credential store (`getAuthValue`), credential
provider (`getBearerAuth`), command-line parsing (`commandArgument`) and the
`/content/` router.  Times are integers in milliseconds; JavaScript numbers
that may be `undefined`/`NaN` are modelled as `Option Int`.
-/

namespace OceProxy

/-- A JavaScript numeric value that may be `undefined`/`NaN` (`none`). -/
abbrev JSNum := Option Int

/-- JS addition `a + b` where `b` may be `undefined` (then the result is NaN). -/
def jsAdd (a : Int) (b : JSNum) : JSNum := b.map (fun x => a + x)

/-- The constant `FIVE_SECONDS_MS` from server.mjs (line 68). -/
def FIVE_SECONDS_MS : Int := 5000

/-- The fields of `src/config/content.json` used by the server; a JS string
field that is absent or empty is falsy, so `""` models both. -/
structure Config where
  auth : String := ""
  clientId : String := ""
  clientSecret : String := ""
  clientScopeURL : String := ""
  idcsURL : String := ""
  serverUrl : String := ""
  deriving Repr, DecidableEq

/-- The module-global credential state of server.mjs (lines 75-76):
`globalAuthValue` (`none` = JS `null`, `some ""` = the initial `''`) and
`globalAuthExpiry` (`none` = JS `null`; `some none` = a Date built from NaN;
`some (some t)` = a Date at `t` milliseconds). -/
structure AuthState where
  globalAuthValue : Option String
  globalAuthExpiry : Option JSNum
  deriving Repr, DecidableEq

/-- Initial state from `let globalAuthValue = ''; let globalAuthExpiry = null;`
(lines 75-76). -/
def initialAuthState : AuthState := ⟨some "", none⟩

/-- JS truthiness test for a string variable that may also hold `null`. -/
def falsy : Option String → Bool
  | none => true
  | some s => s = ""

/-- Embeds `isAuthNeeded()` (lines 81-86): true when `data.auth` or
`data.clientId` is truthy. -/
def isAuthNeeded (cfg : Config) : Bool := cfg.auth ≠ "" || cfg.clientId ≠ ""

/-- The staleness test of `getAuthValue` (lines 140-141):
`!globalAuthValue || !globalAuthExpiry
   || (globalAuthExpiry.getTime() - FIVE_SECONDS_MS) > currentDate.getTime()`.
A comparison against NaN is false in JS. -/
def staleCheck (st : AuthState) (now : Int) : Bool :=
  falsy st.globalAuthValue || st.globalAuthExpiry.isNone ||
    (match st.globalAuthExpiry with
     | some (some e) => decide (e - FIVE_SECONDS_MS > now)
     | _ => false)

/-- The object returned by `getBearerAuth` (lines 121-124): the header value
and the raw `expires_in` field (which may be `undefined`). -/
structure TokenResult where
  authHeaderValue : String
  expiry : JSNum
  deriving Repr, DecidableEq

/-- One call to `getAuthValue()` (lines 130-159).  `now` is
`new Date().getTime()` at the staleness check, `now2` is `Date.now()` after
the provider call returned, and `provider` is the outcome `getBearerAuth()`
would produce if invoked.  Returns the value handed to the caller (an
`Except` because a provider failure propagates), the new global state, and
how many provider calls were made (0 or 1). -/
def getAuthValue (cfg : Config) (st : AuthState) (now now2 : Int)
    (provider : Except String TokenResult) :
    Except String (Option String) × AuthState × Nat :=
  if cfg.auth ≠ "" then
    -- `globalAuthValue = data.auth;` then `return globalAuthValue;`
    (Except.ok (some cfg.auth), { st with globalAuthValue := some cfg.auth }, 0)
  else if cfg.clientId ≠ "" then
    if staleCheck st now then
      -- `globalAuthValue = '';` happens before `await getBearerAuth()`
      match provider with
      | Except.error e =>
          (Except.error e, { st with globalAuthValue := some "" }, 1)
      | Except.ok tok =>
          -- `currDateMS += authDetails.expiry` adds the raw number to a
          -- milliseconds clock
          (Except.ok (some tok.authHeaderValue),
           { globalAuthValue := some tok.authHeaderValue,
             globalAuthExpiry := some (jsAdd now2 tok.expiry) }, 1)
    else
      (Except.ok st.globalAuthValue, st, 0)
  else
    (Except.ok none, { globalAuthValue := none, globalAuthExpiry := none }, 0)

/-! ### The credential provider `getBearerAuth` (lines 94-125) -/

/-- The JSON body the identity service returns, as the fields the code reads;
either may be absent (`undefined`). -/
structure TokenJSON where
  access_token : Option String := none
  expires_in : JSNum := none
  deriving Repr, DecidableEq

/-- The response object produced by `fetch`: its status code and the outcome
of `response.json()` (an `Except` because parsing can throw). -/
structure FetchResponse where
  status : Nat
  jsonOutcome : Except String TokenJSON
  deriving Repr

/-- JS template interpolation of a value that may be `undefined`:
`` `Bearer ${access_token}` `` prints the string `"undefined"` then. -/
def jsInterp : Option String → String
  | none => "undefined"
  | some s => s

/-- Embeds `getBearerAuth()` (lines 94-125) as a function of the outcome of its one
`fetch` call (`Except.error` = the network call threw).  The code never
inspects `response.status` and never checks that `access_token` is present:
it destructures the parsed JSON and returns
`{ authHeaderValue: "Bearer " + access_token, expiry: expires_in }`. -/
def getBearerAuth (fetchOutcome : Except String FetchResponse) :
    Except String TokenResult :=
  match fetchOutcome with
  | Except.error e => Except.error e
  | Except.ok resp =>
      match resp.jsonOutcome with
      | Except.error e => Except.error e
      | Except.ok j =>
          Except.ok
            { authHeaderValue := "Bearer " ++ jsInterp j.access_token,
              expiry := j.expires_in }

/-- The request body `getBearerAuth` sends (line 107). -/
def tokenRequestBody (encodedScopeUrl : String) : String :=
  "grant_type=client_credentials&scope=" ++ encodedScopeUrl

/-! ### Repeated calls to the store (for the static-auth claim) -/

/-- A call's inputs: the two clock readings and the provider outcome that
`getBearerAuth` would yield if invoked during this call. -/
structure CallInput where
  now : Int
  now2 : Int
  provider : Except String TokenResult

/-- Run a sequence of `getAuthValue` calls, threading the global state;
returns the list of values handed to the callers, the final state, and how
many provider calls happened in total. -/
def runCalls (cfg : Config) (st : AuthState) :
    List CallInput → List (Except String (Option String)) × AuthState × Nat
  | [] => ([], st, 0)
  | c :: cs =>
      let r := getAuthValue cfg st c.now c.now2 c.provider
      let rest := runCalls cfg r.2.1 cs
      (r.1 :: rest.1, rest.2.1, r.2.2 + rest.2.2)

/-! ### Interleaved concurrent calls (the `await` in `getAuthValue` is a
suspension point: lines 140-150 run in two synchronous slices) -/

/-- What a suspended caller still has to do: `fetching tok` is a caller that
has passed the staleness check, set `globalAuthValue = ''`, and started a
provider call that will yield `tok`; `done v` is a caller whose
`getAuthValue` promise has resolved to `v`. -/
inductive Phase where
  | fetching (tok : TokenResult) : Phase
  | done (ret : Option String) : Phase
  deriving Repr, DecidableEq

/-- Shared state plus the number of provider calls made so far. -/
structure World where
  st : AuthState
  providerCalls : Nat
  deriving Repr, DecidableEq

/-- The first synchronous slice of one caller's `getAuthValue` in the OAuth
branch (config has `clientId`, no `auth`): run lines 137-143 up to the
`await getBearerAuth()`.  If the state is stale the caller clears
`globalAuthValue`, counts a provider call and suspends; otherwise its promise
resolves at once with the cached value. -/
def stepReady (w : World) (now : Int) (tok : TokenResult) : World × Phase :=
  if staleCheck w.st now then
    ({ st := { w.st with globalAuthValue := some "" },
       providerCalls := w.providerCalls + 1 },
     Phase.fetching tok)
  else
    (w, Phase.done w.st.globalAuthValue)

/-- The second slice: the caller resumes after its `await` with `tok`, writes
the new value and expiry (lines 144-150) and resolves with the value. -/
def stepFetching (w : World) (now2 : Int) (tok : TokenResult) :
    World × Option String :=
  ({ st := { globalAuthValue := some tok.authHeaderValue,
             globalAuthExpiry := some (jsAdd now2 tok.expiry) },
     providerCalls := w.providerCalls },
   some tok.authHeaderValue)

/-- Resolve a suspended caller: a `done` caller already has its value; a
`fetching` caller runs its second slice. -/
def resolvePhase (w : World) (now2 : Int) : Phase → World × Option String
  | Phase.done v => (w, v)
  | Phase.fetching tok => stepFetching w now2 tok

/-- Two concurrent callers on the event loop: both run their first slice
(the staleness check) before either pending provider call resolves, then the
two awaits resolve in order.  Returns the final world and the values the two
callers receive. -/
def interleaveTwo (w : World) (now now2 : Int) (t1 t2 : TokenResult) :
    World × Option String × Option String :=
  let r1 := stepReady w now t1
  let r2 := stepReady r1.1 now t2
  let f1 := resolvePhase r2.1 now2 r1.2
  let f2 := resolvePhase f1.1 now2 r2.2
  (f2.1, f1.2, f2.2)

/-- All of a batch of concurrent callers run their first slice (reach the
staleness check) before any provider call resolves: the event-loop order in
which N stale detections happen back-to-back. -/
def runAllReady (w : World) (now : Int) : List TokenResult → World × List Phase
  | [] => (w, [])
  | tok :: toks =>
      let r := stepReady w now tok
      let rest := runAllReady r.1 now toks
      (rest.1, r.2 :: rest.2)

/-! ### Command-line parsing `commandArgument` (lines 25-40) -/

/-- JS `Array.prototype.indexOf`: the first index of `key`, or `-1`. -/
def jsIndexOf (argv : List String) (key : String) : Int :=
  match argv.findIdx? (fun a => a == key) with
  | none => -1
  | some i => (i : Int)

/-- Embeds `commandArgument(key, defaultValue)` (lines 25-40) over an explicit
`argv`; a missing `defaultValue` is `none` and a thrown `Error` is
`Except.error`.  (The `defaultValue instanceof Function` case is elided: the
server only ever passes strings or nothing.) -/
def commandArgument (argv : List String) (key : String)
    (defaultValue : Option String) : Except String String :=
  let keyIndex := jsIndexOf argv key
  if keyIndex < 1 ∨ (argv.length : Int) = keyIndex + 1 then
    match defaultValue with
    | some d => Except.ok d
    | none => Except.error ("ERROR: missing " ++ key ++ " <value>")
  else
    Except.ok (argv.getD (keyIndex.toNat + 1) "")

/-! ### The `/content/` router (lines 205-230) -/

/-- JS `s.charAt(s.length - 1) === '/'`: `charAt` of an empty string is the
empty string, which is not `'/'`. -/
def lastCharIsSlash (s : String) : Bool :=
  match s.data.getLast? with
  | some c => c == '/'
  | none => false

/-- JS `s.charAt(0) !== '/'`. -/
def firstCharIsSlash (s : String) : Bool :=
  match s.data.head? with
  | some c => c == '/'
  | none => false

/-- Lines 211-217: build `oceUrl` from the configured `serverUrl` and
Express's `req.url` (the inbound path and query with the `/content` mount
prefix already stripped). -/
def buildOceUrl (serverUrl reqUrl : String) : String :=
  let content := if lastCharIsSlash serverUrl then "content" else "/content"
  let content := if firstCharIsSlash reqUrl then content else content ++ "/"
  serverUrl ++ content ++ reqUrl

/-- Express strips the mount path `/content` from the inbound URL before the
handler runs: for `/content/published/x` the handler's `req.url` is
`/published/x`. -/
def expressStripMount (inboundUrl : String) : String :=
  inboundUrl.drop 8

/-- An inbound request as the handler sees it. -/
structure InboundReq where
  method : String
  url : String
  deriving Repr, DecidableEq

/-- The externally visible outcome of the `/content/` handler for one
request: the upstream call it issues (target URL and the `Authorization`
header it adds, if any), and whether anything is ever written to the inbound
response.  `executeRequest` (lines 176-194) both opens the upstream
connection and pipes the upstream response back, so issuing the call and
responding coincide. -/
structure RouterResult where
  upstreamCall : Option (String × Option String)
  responded : Bool
  deriving Repr, DecidableEq

/-- The `app.use('/content/', ...)` handler (lines 205-230) as a function of
the resolution of `getAuthValue()`'s promise when authorization is needed.
Non-GET requests return without doing anything; a rejected `getAuthValue()`
promise has no rejection handler on its `.then` chain, so nothing runs. -/
def contentHandler (cfg : Config) (req : InboundReq)
    (authOutcome : Except String (Option String)) : RouterResult :=
  if req.method ≠ "GET" then
    { upstreamCall := none, responded := false }
  else
    let oceUrl := buildOceUrl cfg.serverUrl req.url
    if isAuthNeeded cfg then
      match authOutcome with
      | Except.error _ => { upstreamCall := none, responded := false }
      | Except.ok v => { upstreamCall := some (oceUrl, v), responded := true }
    else
      { upstreamCall := some (oceUrl, none), responded := true }

/-! ### Concrete fixtures -/

/-- An OAuth configuration: `clientId` set, no static `auth`. -/
def cfgOAuth : Config := { clientId := "sampleClientId" }

/-- A first token with `expires_in = 3600`. -/
def tokenA : TokenResult := { authHeaderValue := "Bearer A", expiry := some 3600 }

/-- A second, distinct token with `expires_in = 3600`. -/
def tokenB : TokenResult := { authHeaderValue := "Bearer B", expiry := some 3600 }

/-- A third, distinct token with `expires_in = 3600`. -/
def tokenC : TokenResult := { authHeaderValue := "Bearer C", expiry := some 3600 }

/-- A token with `expires_in = 10000`. -/
def tokenX : TokenResult := { authHeaderValue := "Bearer X", expiry := some 10000 }

/-! ### Claims -/

/-- C1: the spec requires that a credential fetched at `T = 0` with
`expires_in = 3600` is served from cache on `[0, 3595s)` and that the first
call at or after `T = 3595s` triggers exactly one refresh returning the new
token.  The code stores the expiry with the raw `expires_in` added to a
millisecond clock and compares it in the reversed direction, so the call at
`T = 3596s` performs zero provider calls and still returns token A instead of
refreshing to token B: this theorem evaluates the embedded code on exactly
that scenario. -/
theorem c1_call_after_expiry_returns_stale_token :
    getAuthValue cfgOAuth initialAuthState 0 0 (Except.ok tokenA)
      = (Except.ok (some "Bearer A"),
         ⟨some "Bearer A", some (some 3600)⟩, 1) ∧
    getAuthValue cfgOAuth ⟨some "Bearer A", some (some 3600)⟩
        3596000 3596000 (Except.ok tokenB)
      = (Except.ok (some "Bearer A"),
         ⟨some "Bearer A", some (some 3600)⟩, 0) := by
  exact ⟨rfl, rfl⟩

/-- C3: the claim states that after a refresh at time `T` returning
`expires_in = E` seconds, `globalAuthExpiry` equals `T` plus `E` seconds,
i.e. `T + 1000 * E` milliseconds.  The code executes
`currDateMS += authDetails.expiry`, adding the raw seconds count to a
millisecond clock: refreshing at `T = 0` with `expires_in = 3600` stores the
instant 3600 ms, not 3600000 ms. -/
theorem c3_expiry_added_as_milliseconds :
    (getAuthValue cfgOAuth initialAuthState 0 0
        (Except.ok tokenA)).2.1.globalAuthExpiry = some (some 3600) ∧
    (3600 : Int) ≠ 0 + 1000 * 3600 := by
  refine ⟨rfl, by decide⟩

/-- C4 counterexample: starting from the cached state left by a fetch of
`tokenX` (`expires_in = 10000`), the reversed comparison makes the next call
at `T = 1000` take the refresh branch, which clears `globalAuthValue` to the
empty string before awaiting the provider; when the provider then throws, the
error propagates but the stored value is the empty string, not the prior
`"Bearer X"` — the state is not left exactly as it was. -/
theorem c4_counterexample :
    runCalls cfgOAuth initialAuthState
        [⟨0, 0, Except.ok tokenX⟩, ⟨1000, 1000, Except.error "boom"⟩]
      = ([Except.ok (some "Bearer X"), Except.error "boom"],
         ⟨some "", some (some 10000)⟩, 2) ∧
    (⟨some "", some (some 10000)⟩ : AuthState)
      ≠ ⟨some "Bearer X", some (some 10000)⟩ := by
  refine ⟨rfl, by decide⟩

/-- C4 amended: when the OAuth branch takes the refresh path and the provider
fails, the error propagates to the caller and `globalAuthExpiry` is left
unchanged, but `globalAuthValue` has already been overwritten with the empty
string before the provider call, so the previously cached value is lost. -/
theorem c4_error_keeps_expiry_but_clears_value (cfg : Config) (st : AuthState)
    (now now2 : Int) (e : String)
    (hauth : cfg.auth = "") (hcid : cfg.clientId ≠ "")
    (hstale : staleCheck st now = true) :
    getAuthValue cfg st now now2 (Except.error e)
      = (Except.error e, { st with globalAuthValue := some "" }, 1) := by
  simp [getAuthValue, hauth, hcid, hstale]

/-- C4 amended, witness: the general theorem applied to the concrete state
reached in the counterexample. -/
theorem c4_error_keeps_expiry_but_clears_value_witness :
    getAuthValue cfgOAuth ⟨some "Bearer X", some (some 10000)⟩ 1000 1000
        (Except.error "boom")
      = (Except.error "boom", ⟨some "", some (some 10000)⟩, 1) :=
  c4_error_keeps_expiry_but_clears_value cfgOAuth
    ⟨some "Bearer X", some (some 10000)⟩ 1000 1000 "boom"
    rfl (by decide) (by decide)

/-- C5 counterexample: a non-2xx identity-service response (status 401) whose
JSON body parses but carries no `access_token` is not surfaced as a failure:
`getBearerAuth` returns the normal result
`(authHeaderValue = "Bearer undefined", expiry = undefined)` because the code
never inspects the status code or checks the field. -/
theorem c5_counterexample :
    getBearerAuth (Except.ok ⟨401,
        Except.ok { access_token := none, expires_in := none }⟩)
      = Except.ok { authHeaderValue := "Bearer undefined", expiry := none } ∧
    ¬ (200 ≤ 401 ∧ 401 < 300) := by
  refine ⟨rfl, by decide⟩

/-- C5 amended: a network failure of the `fetch` call and a JSON-parse
failure both propagate as errors, but a non-2xx status is never examined, and
a parsed body missing `access_token` produces the normal result
`"Bearer undefined"` together with whatever `expires_in` held. -/
theorem c5_only_thrown_errors_surface :
    (∀ e, getBearerAuth (Except.error e) = Except.error e) ∧
    (∀ status e,
      getBearerAuth (Except.ok ⟨status, Except.error e⟩) = Except.error e) ∧
    (∀ status j, j.access_token = none →
      getBearerAuth (Except.ok ⟨status, Except.ok j⟩)
        = Except.ok { authHeaderValue := "Bearer undefined",
                      expiry := j.expires_in }) := by
  refine ⟨fun e => rfl, fun status e => rfl, fun status j h => ?_⟩
  simp [getBearerAuth, jsInterp, h]

/-- C5 amended, witness: a 500 response with a parseable error body yields a
normal token result. -/
theorem c5_only_thrown_errors_surface_witness :
    getBearerAuth (Except.ok ⟨500,
        Except.ok { access_token := none, expires_in := some 3600 }⟩)
      = Except.ok { authHeaderValue := "Bearer undefined",
                    expiry := some 3600 } :=
  c5_only_thrown_errors_surface.2.2 500
    { access_token := none, expires_in := some 3600 } rfl

/-- C2 counterexample: with the empty startup cache, two concurrent callers
that both reach the staleness check before either provider call resolves make
two provider calls (not one), and the two callers receive different values
when the provider hands out different tokens. -/
theorem c2_counterexample :
    interleaveTwo ⟨initialAuthState, 0⟩ 0 0 tokenB tokenC
      = (⟨⟨some "Bearer C", some (some 3600)⟩, 2⟩,
         some "Bearer B", some "Bearer C") ∧
    (2 : Nat) ≠ 1 ∧
    (some "Bearer B" : Option String) ≠ some "Bearer C" := by
  refine ⟨rfl, by decide, by decide⟩

/-- C2 amended: there is no single-flight guard, so when the cached value is
falsy (empty or null) every concurrent caller that reaches the staleness
check before any refresh resolves triggers its own provider call — a batch of
N such callers makes exactly N provider calls, each left awaiting its own
token (and hence each resolves with its own fetched value, not a shared
one). -/
theorem c2_every_concurrent_caller_refreshes (w : World) (now : Int)
    (toks : List TokenResult) (h : falsy w.st.globalAuthValue = true) :
    (runAllReady w now toks).1.providerCalls
      = w.providerCalls + toks.length ∧
    (runAllReady w now toks).2 = toks.map Phase.fetching := by
  induction toks generalizing w with
  | nil => simp [runAllReady]
  | cons t ts ih =>
    have hstale : staleCheck w.st now = true := by
      simp [staleCheck, h]
    have hrec := ih ⟨{ w.st with globalAuthValue := some "" },
                     w.providerCalls + 1⟩ rfl
    have h1 : (runAllReady ⟨{ w.st with globalAuthValue := some "" },
          w.providerCalls + 1⟩ now ts).1.providerCalls
        = w.providerCalls + 1 + ts.length := hrec.1
    simp only [runAllReady, stepReady, hstale, if_true, List.map_cons,
      List.length_cons]
    exact ⟨by rw [h1]; omega, by rw [hrec.2]⟩

/-- C2 amended, witness: three concurrent callers over the empty startup
cache make three provider calls. -/
theorem c2_every_concurrent_caller_refreshes_witness :
    (runAllReady ⟨initialAuthState, 0⟩ 0 [tokenA, tokenB, tokenC]).1.providerCalls
      = 0 + 3 ∧
    (runAllReady ⟨initialAuthState, 0⟩ 0 [tokenA, tokenB, tokenC]).2
      = [Phase.fetching tokenA, Phase.fetching tokenB, Phase.fetching tokenC] := by
  have := c2_every_concurrent_caller_refreshes ⟨initialAuthState, 0⟩ 0
    [tokenA, tokenB, tokenC] rfl
  simpa using this

/-- C6: the upstream URL is the configured `serverUrl`, exactly one slash,
`content`, then the rest of the inbound path and query verbatim.  The two
concrete clauses are the spec's example with and without a trailing slash on
`serverUrl`; the general clauses show that for any `serverUrl` (with and
without one trailing slash) and any stripped inbound path starting with `/`,
the result is `serverUrl` (sans trailing slash) ++ `"/content"` ++ the path
verbatim. -/
theorem c6_upstream_url_has_single_separator :
    buildOceUrl "https://example.com/oce"
        (expressStripMount "/content/published/api/v1.1/items/123")
      = "https://example.com/oce/content/published/api/v1.1/items/123" ∧
    buildOceUrl "https://example.com/oce/"
        (expressStripMount "/content/published/api/v1.1/items/123")
      = "https://example.com/oce/content/published/api/v1.1/items/123" ∧
    (∀ s u, lastCharIsSlash s = false → firstCharIsSlash u = true →
      buildOceUrl s u = s ++ "/content" ++ u) ∧
    (∀ s u, lastCharIsSlash s = false → firstCharIsSlash u = true →
      buildOceUrl (s ++ "/") u = s ++ "/content" ++ u) := by
  refine ⟨rfl, rfl, ?_, ?_⟩
  · intro s u h1 h2
    simp [buildOceUrl, h1, h2]
  · intro s u h1 h2
    have hlast : lastCharIsSlash (s ++ "/") = true := by
      simp [lastCharIsSlash, String.data_append]
    simp only [buildOceUrl, hlast, h2, if_true]
    rw [String.append_assoc s "/" "content",
        show "/" ++ "content" = "/content" from rfl]

/-- C6 witness: the general clauses applied to a concrete server URL and
path. -/
theorem c6_upstream_url_has_single_separator_witness :
    buildOceUrl "http://h" "/p" = "http://h" ++ "/content" ++ "/p" ∧
    buildOceUrl ("http://h" ++ "/") "/p" = "http://h" ++ "/content" ++ "/p" :=
  ⟨c6_upstream_url_has_single_separator.2.2.1 "http://h" "/p" rfl rfl,
   c6_upstream_url_has_single_separator.2.2.2 "http://h" "/p" rfl rfl⟩

/-- C7: the handler returns immediately on any non-GET method: no upstream
call is issued and nothing is written to the inbound response. -/
theorem c7_non_get_request_dropped (cfg : Config) (req : InboundReq)
    (authOutcome : Except String (Option String)) (h : req.method ≠ "GET") :
    contentHandler cfg req authOutcome
      = { upstreamCall := none, responded := false } := by
  simp [contentHandler, h]

/-- C7 witness: a POST under the proxy prefix is dropped. -/
theorem c7_non_get_request_dropped_witness :
    contentHandler cfgOAuth ⟨"POST", "/published/api/v1.1/items/123"⟩
        (Except.ok (some "Bearer A"))
      = { upstreamCall := none, responded := false } :=
  c7_non_get_request_dropped cfgOAuth ⟨"POST", "/published/api/v1.1/items/123"⟩
    (Except.ok (some "Bearer A")) (by decide)

/-- C8: with a static `data.auth` configured, every call in any sequence of
`getAuthValue()` calls — whatever the prior state, the clocks, or the
provider outcomes on offer — returns the static value and the provider is
called zero times in total. -/
theorem c8_static_auth_never_calls_provider (cfg : Config) (st : AuthState)
    (calls : List CallInput) (h : cfg.auth ≠ "") :
    (runCalls cfg st calls).2.2 = 0 ∧
    (runCalls cfg st calls).1
      = calls.map (fun _ => Except.ok (some cfg.auth)) := by
  induction calls generalizing st with
  | nil => simp [runCalls]
  | cons c cs ih =>
    have hrec := ih { st with globalAuthValue := some cfg.auth }
    simp only [runCalls, getAuthValue]
    rw [if_pos h]
    simp [hrec.1, hrec.2]

/-- C8 witness: two calls far apart in time with fresh provider tokens on
offer still return the static value and never call the provider. -/
theorem c8_static_auth_never_calls_provider_witness :
    (runCalls { auth := "Basic zzz" } initialAuthState
        [⟨0, 0, Except.ok tokenA⟩,
         ⟨99999999, 99999999, Except.ok tokenB⟩]).2.2 = 0 ∧
    (runCalls { auth := "Basic zzz" } initialAuthState
        [⟨0, 0, Except.ok tokenA⟩,
         ⟨99999999, 99999999, Except.ok tokenB⟩]).1
      = [Except.ok (some "Basic zzz"), Except.ok (some "Basic zzz")] := by
  have := c8_static_auth_never_calls_provider { auth := "Basic zzz" }
    initialAuthState
    [⟨0, 0, Except.ok tokenA⟩, ⟨99999999, 99999999, Except.ok tokenB⟩]
    (by decide)
  simpa using this

/-- C9: when the key is absent from `argv` and no default value is supplied,
`commandArgument` throws the fatal configuration error instead of producing a
value. -/
theorem c9_missing_root_argument_aborts (argv : List String)
    (h : "--root" ∉ argv) :
    commandArgument argv "--root" none
      = Except.error "ERROR: missing --root <value>" := by
  have hidx : argv.findIdx? (fun a => a == "--root") = none := by
    rw [List.findIdx?_eq_none_iff]
    intro x hx
    exact beq_false_of_ne (fun hxe => h (hxe ▸ hx))
  rw [commandArgument, jsIndexOf, hidx]
  norm_num
  rfl

/-- C9 witness: an `argv` with no `--root` aborts startup. -/
theorem c9_missing_root_argument_aborts_witness :
    commandArgument ["node", "server.mjs"] "--root" none
      = Except.error "ERROR: missing --root <value>" :=
  c9_missing_root_argument_aborts ["node", "server.mjs"] (by decide)

/-- C10: when authorization is needed and the `getAuthValue()` promise
rejects, the `.then` chain has no rejection handler, so the handler issues no
upstream call and writes nothing to the inbound response. -/
theorem c10_rejected_auth_leaves_request_unanswered (cfg : Config)
    (req : InboundReq) (e : String)
    (hneed : isAuthNeeded cfg = true) (hget : req.method = "GET") :
    contentHandler cfg req (Except.error e)
      = { upstreamCall := none, responded := false } := by
  simp [contentHandler, hget, hneed]

/-- C10 witness: a GET with OAuth configured whose credential fetch fails is
left unanswered. -/
theorem c10_rejected_auth_leaves_request_unanswered_witness :
    contentHandler cfgOAuth ⟨"GET", "/published/api/v1.1/items/123"⟩
        (Except.error "token fetch failed")
      = { upstreamCall := none, responded := false } :=
  c10_rejected_auth_leaves_request_unanswered cfgOAuth
    ⟨"GET", "/published/api/v1.1/items/123"⟩ "token fetch failed"
    (by decide) rfl

end OceProxy
